import Mathlib

/-!
# Verification of the LangVoice JS/TS SDK against its specification

A shallow embedding of the SDK's data models (`src/models.ts`), error
taxonomy (`src/exceptions.ts`), API client (`src/client.ts`) and the four
tool adapters (`src/tools/*.ts`) into Lean 4, together with theorems that
settle the spec's testable properties.

Modelling conventions:
* JS strings are Lean `String`s; string length is character count.
* JS numbers that the SDK treats as finite decimals (speed, durations,
  header floats) are `ℚ`.
* Byte buffers (`Buffer` / `ArrayBuffer`) are `List (Fin 256)`.
* `undefined`/missing optional fields are `Option.none`.
* A JS `throw` is `Except.error`; functions whose every error path is
  caught in the source are total (they return the envelope directly).
* The network (`fetch`) and the file system (`fs.writeFileSync` plus the
  dynamic `import('fs')`) are oracles passed in as explicit arguments;
  file writes are additionally reported as an explicit write event in the
  function's result so that persisted bytes can be reasoned about.
-/

namespace LangVoice

/-! ## JS truthiness helpers

`a || b` on JS strings treats `undefined` and `""` as falsy;
on JS numbers it treats `undefined` and `0` as falsy;
`a ?? b` only treats `undefined`/`null` as nullish. -/

/-- JS `a || b` for an optional string `a`: `undefined` and `""` fall back. -/
def jsOrStr (a : Option String) (b : String) : String :=
  match a with
  | some s => if s = "" then b else s
  | none => b

/-- JS `a || b` for an optional number `a`: `undefined` and `0` fall back. -/
def jsOrQ (a : Option ℚ) (b : ℚ) : ℚ :=
  match a with
  | some x => if x = 0 then b else x
  | none => b

/-- JS `a || b` for an optional numeric count: `undefined` and `0` fall back. -/
def jsOrNat (a : Option Nat) (b : Nat) : Nat :=
  match a with
  | some n => if n = 0 then b else n
  | none => b

/-- JS `a ?? b` (nullish coalescing): only `undefined`/`null` falls back. -/
def jsNullish (a : Option ℚ) (b : ℚ) : ℚ := a.getD b

/-! ## Error taxonomy (`src/exceptions.ts`)

`LangVoiceError` subclasses carry a message and a status code.  Errors
thrown by the SDK that are *not* `LangVoiceError`s (the plain `Error`s of
request validation, rethrown fetch failures, `JSON.parse` syntax errors)
are modelled by `jsError name msg`. -/

/-- Every error value the embedded SDK can throw. -/
inductive LVError where
  /-- `AuthenticationError` (statusCode 401). -/
  | authentication (msg : String)
  /-- `RateLimitError` (statusCode 429). -/
  | rateLimit (msg : String)
  /-- `ValidationError` (statusCode 400). -/
  | validation (msg : String)
  /-- `APIError` with its optional status code. -/
  | api (msg : String) (statusCode : Option Nat)
  /-- A JS `Error` that is not a `LangVoiceError` subclass: `name` is the
  JS error class name (`"Error"`, `"TypeError"`, `"SyntaxError"`, ...). -/
  | jsError (name msg : String)
  deriving DecidableEq, Repr

/-- `error.message` of any thrown error (all modelled errors are `Error`
instances, so the adapters' `error instanceof Error ? error.message :
'Unknown error'` always takes the first branch). -/
def LVError.message : LVError → String
  | .authentication m => m
  | .rateLimit m => m
  | .validation m => m
  | .api m _ => m
  | .jsError _ m => m

/-- Is the error one of the `LangVoiceError` subclasses (as opposed to a
plain JS error)? -/
def LVError.isLangVoiceError : LVError → Bool
  | .jsError _ _ => false
  | _ => true

/-- Decidable equality for `Except` results (used to evaluate the
embedding at concrete inputs). -/
instance {e a : Type} [DecidableEq e] [DecidableEq a] : DecidableEq (Except e a) := fun x y =>
  match x, y with
  | .ok u, .ok v => if h : u = v then isTrue (by rw [h]) else isFalse (by simp [h])
  | .ok _, .error _ => isFalse (by simp)
  | .error _, .ok _ => isFalse (by simp)
  | .error u, .error v => if h : u = v then isTrue (by rw [h]) else isFalse (by simp [h])

/-! ## Domain models (`src/models.ts`) -/

/-- `VoiceData` / the `Voice` class (constructor copies all fields). -/
structure VoiceData where
  id : String
  name : String
  gender : Option String := none
  language : Option String := none
  description : Option String := none
  deriving DecidableEq, Repr

/-- `LanguageData` / the `Language` class. -/
structure LanguageData where
  id : String
  name : String
  voices : Option (List String) := none
  deriving DecidableEq, Repr

/-- A validated `GenerateRequest` (fields after defaulting). -/
structure GenerateRequest where
  text : String
  voice : String
  language : String
  speed : ℚ
  deriving DecidableEq, Repr

/-- The `GenerateRequest` constructor.  `text` is `Option String` because
adapters can hand the constructor a runtime-`undefined` `args.text`; the
constructor's own `!data.text` check treats `undefined` and `""` alike.
Checks are in source order: required text, length cap, then (after
defaulting `voice`/`language`/`speed`) the speed range. -/
def GenerateRequest.mk? (text : Option String) (voice : Option String)
    (language : Option String) (speed : Option ℚ) : Except String GenerateRequest :=
  if text = none ∨ text = some "" then
    .error "Text is required"
  else
    let t := text.getD ""
    if t.length > 5000 then
      .error "Text must be 5000 characters or less"
    else
      let sp := jsNullish speed 1
      if sp < mkRat 1 2 ∨ sp > 2 then
        .error "Speed must be between 0.5 and 2.0"
      else
        .ok { text := t, voice := jsOrStr voice "heart"
              language := jsOrStr language "american_english", speed := sp }

/-- A validated `MultiVoiceRequest` (no single `voice` field). -/
structure MultiVoiceRequest where
  text : String
  language : String
  speed : ℚ
  deriving DecidableEq, Repr

/-- The `MultiVoiceRequest` constructor: same text and speed invariants as
`GenerateRequest.mk?`, no voice field. -/
def MultiVoiceRequest.mk? (text : Option String) (language : Option String)
    (speed : Option ℚ) : Except String MultiVoiceRequest :=
  if text = none ∨ text = some "" then
    .error "Text is required"
  else
    let t := text.getD ""
    if t.length > 5000 then
      .error "Text must be 5000 characters or less"
    else
      let sp := jsNullish speed 1
      if sp < mkRat 1 2 ∨ sp > 2 then
        .error "Speed must be between 0.5 and 2.0"
      else
        .ok { text := t, language := jsOrStr language "american_english", speed := sp }

/-- The messages of the three local request-validation errors (thrown as
plain `Error`s by the request constructors). -/
def validationMessages : List String :=
  ["Text is required", "Text must be 5000 characters or less",
   "Speed must be between 0.5 and 2.0"]

/-! ## Base64 (Node `Buffer.toString('base64')` / `Buffer.from(s,'base64')`)

Standard base64 with `=` padding over the alphabet `A-Z a-z 0-9 + /`.
`encodeGroups` is the encoder Node uses for `buf.toString('base64')`;
`decodeGroups` models `Buffer.from(s, 'base64')` on well-formed base64
text (on the strings produced by the encoder the lenient Node decoder and
this strict one agree). -/

/-- The base64 alphabet: sextet index to character. -/
def encChar (i : Fin 64) : Char :=
  if i.val < 26 then Char.ofNat (65 + i.val)
  else if i.val < 52 then Char.ofNat (97 + (i.val - 26))
  else if i.val < 62 then Char.ofNat (48 + (i.val - 52))
  else if i.val = 62 then '+'
  else '/'

/-- Inverse of the base64 alphabet. -/
def decChar (c : Char) : Option (Fin 64) :=
  let n := c.toNat
  if h : 65 ≤ n ∧ n ≤ 90 then some ⟨n - 65, by omega⟩
  else if h : 97 ≤ n ∧ n ≤ 122 then some ⟨n - 97 + 26, by omega⟩
  else if h : 48 ≤ n ∧ n ≤ 57 then some ⟨n - 48 + 52, by omega⟩
  else if c = '+' then some ⟨62, by omega⟩
  else if c = '/' then some ⟨63, by omega⟩
  else none

/-- First output sextet of a 3-byte group. -/
def b64c1 (a : Fin 256) : Fin 64 :=
  ⟨a.val / 4, by have := a.isLt; omega⟩

/-- Second output sextet of a 3-byte group. -/
def b64c2 (a b : Fin 256) : Fin 64 :=
  ⟨a.val % 4 * 16 + b.val / 16, by have := b.isLt; omega⟩

/-- Third output sextet of a 3-byte group. -/
def b64c3 (b c : Fin 256) : Fin 64 :=
  ⟨b.val % 16 * 4 + c.val / 64, by have := c.isLt; omega⟩

/-- Fourth output sextet of a 3-byte group. -/
def b64c4 (c : Fin 256) : Fin 64 :=
  ⟨c.val % 64, by omega⟩

/-- Base64-encode a byte list, 3 bytes per 4-character group, padding the
final partial group with `=`. -/
def encodeGroups : List (Fin 256) → List Char
  | [] => []
  | [a] => [encChar (b64c1 a), encChar (b64c2 a 0), '=', '=']
  | [a, b] => [encChar (b64c1 a), encChar (b64c2 a b), encChar (b64c3 b 0), '=']
  | a :: b :: c :: rest =>
      encChar (b64c1 a) :: encChar (b64c2 a b) :: encChar (b64c3 b c) ::
        encChar (b64c4 c) :: encodeGroups rest

/-- First byte recovered from sextets 1 and 2. -/
def decByte1 (i1 i2 : Fin 64) : Fin 256 :=
  ⟨i1.val * 4 + i2.val / 16, by have := i1.isLt; have := i2.isLt; omega⟩

/-- Second byte recovered from sextets 2 and 3. -/
def decByte2 (i2 i3 : Fin 64) : Fin 256 :=
  ⟨i2.val % 16 * 16 + i3.val / 4, by have := i3.isLt; omega⟩

/-- Third byte recovered from sextets 3 and 4. -/
def decByte3 (i3 i4 : Fin 64) : Fin 256 :=
  ⟨i3.val % 4 * 64 + i4.val, by have := i4.isLt; omega⟩

/-- Base64-decode a character list (strict: groups of 4, `=` padding only
at the very end). -/
def decodeGroups : List Char → Option (List (Fin 256))
  | [] => some []
  | c1 :: c2 :: c3 :: c4 :: rest => do
      let i1 ← decChar c1
      let i2 ← decChar c2
      if c3 = '=' then
        match rest with
        | [] => if c4 = '=' then some [decByte1 i1 i2] else none
        | _ => none
      else do
        let i3 ← decChar c3
        if c4 = '=' then
          match rest with
          | [] => some [decByte1 i1 i2, decByte2 i2 i3]
          | _ => none
        else do
          let i4 ← decChar c4
          let tail ← decodeGroups rest
          some (decByte1 i1 i2 :: decByte2 i2 i3 :: decByte3 i3 i4 :: tail)
  | _ => none

/-- `buf.toString('base64')`. -/
def bufferToBase64 (bytes : List (Fin 256)) : String :=
  String.mk (encodeGroups bytes)

/-- `Buffer.from(s, 'base64')` on well-formed base64 text. -/
def bufferFromBase64 (s : String) : Option (List (Fin 256)) :=
  decodeGroups s.data

/-- The alphabet map round-trips. -/
theorem decChar_encChar : ∀ i : Fin 64, decChar (encChar i) = some i := by
  decide

/-- No alphabet character is the padding character. -/
theorem encChar_ne_pad : ∀ i : Fin 64, encChar i ≠ '=' := by
  decide

/-- Round trip of the first byte of a group. -/
theorem decByte1_enc (a b : Fin 256) : decByte1 (b64c1 a) (b64c2 a b) = a := by
  apply Fin.ext
  have ha := a.isLt
  have hb := b.isLt
  simp only [decByte1, b64c1, b64c2]
  omega

/-- Round trip of the second byte of a group. -/
theorem decByte2_enc (a b c : Fin 256) :
    decByte2 (b64c2 a b) (b64c3 b c) = b := by
  apply Fin.ext
  have hb := b.isLt
  have hc := c.isLt
  simp only [decByte2, b64c2, b64c3]
  omega

/-- Round trip of the third byte of a group. -/
theorem decByte3_enc (b c : Fin 256) : decByte3 (b64c3 b c) (b64c4 c) = c := by
  apply Fin.ext
  have hc := c.isLt
  simp only [decByte3, b64c3, b64c4]
  omega

/-- Base64 decoding is a left inverse of base64 encoding. -/
theorem decodeGroups_encodeGroups (xs : List (Fin 256)) :
    decodeGroups (encodeGroups xs) = some xs := by
  induction xs using encodeGroups.induct with
  | case1 =>
      simp [encodeGroups, decodeGroups]
  | case2 a =>
      simp [encodeGroups, decodeGroups, decChar_encChar, Option.bind, decByte1_enc]
  | case3 a b =>
      simp [encodeGroups, decodeGroups, decChar_encChar, Option.bind,
        encChar_ne_pad, decByte1_enc, decByte2_enc]
  | case4 a b c rest ih =>
      simp [encodeGroups, decodeGroups, decChar_encChar, Option.bind,
        encChar_ne_pad, decByte1_enc, decByte2_enc, decByte3_enc, ih]

/-! ## Number parsing (`parseFloat` / `parseInt` as used on header values)

`client.ts` only ever feeds header values such as `"2.5s"` (after
`replace('s','')`) and `"100"` to `parseFloat`/`parseInt`; the models
implement the core JS grammar (optional leading whitespace, optional
sign, decimal digits, an optional fraction for `parseFloat`), returning
`none` exactly where JS returns `NaN`. -/

/-- Drop leading JS whitespace. -/
def skipWs : List Char → List Char
  | [] => []
  | c :: cs => if c = ' ' ∨ c = '\t' ∨ c = '\n' ∨ c = '\r' then skipWs cs else c :: cs

/-- Split off a maximal run of decimal digits. -/
def takeDigits : List Char → List Char × List Char
  | [] => ([], [])
  | c :: cs =>
      if c.isDigit then
        let p := takeDigits cs
        (c :: p.1, p.2)
      else ([], c :: cs)

/-- Numeric value of a digit run. -/
def digitsVal (ds : List Char) : Nat :=
  ds.foldl (fun a c => a * 10 + (c.toNat - 48)) 0

/-- JS `parseFloat` (core grammar; `none` is `NaN`).  The value
`int.frac` is the rational `(int * 10^k + frac) / 10^k` (built with
`mkRat` so that it evaluates by kernel reduction). -/
def jsParseFloat (s : String) : Option ℚ :=
  let cs := skipWs s.data
  let signAndRest : Bool × List Char :=
    match cs with
    | '-' :: r => (true, r)
    | '+' :: r => (false, r)
    | r => (false, r)
  let ipAndRest := takeDigits signAndRest.2
  let fp : List Char :=
    match ipAndRest.2 with
    | '.' :: r => (takeDigits r).1
    | _ => []
  if ipAndRest.1 = [] ∧ fp = [] then none
  else
    let mag : ℚ :=
      mkRat (Int.ofNat (digitsVal ipAndRest.1 * 10 ^ fp.length + digitsVal fp))
        (10 ^ fp.length)
    some (if signAndRest.1 then -mag else mag)

/-- JS `parseInt(s, 10)` (`none` is `NaN`). -/
def jsParseInt (s : String) : Option Int :=
  let cs := skipWs s.data
  let signAndRest : Bool × List Char :=
    match cs with
    | '-' :: r => (true, r)
    | '+' :: r => (false, r)
    | r => (false, r)
  let ds := (takeDigits signAndRest.2).1
  if ds = [] then none
  else some (if signAndRest.1 then -(Int.ofNat (digitsVal ds)) else Int.ofNat (digitsVal ds))

/-- JS `str.replace('s', '')`: removes the *first* occurrence only. -/
def removeFirstChar (target : Char) : List Char → List Char
  | [] => []
  | c :: cs => if c = target then cs else c :: removeFirstChar target cs

/-! ## HTTP layer (`src/client.ts`)

`fetch` is modelled by a `FetchOutcome` the environment supplies: either a
response, an abort (the timeout fired), or some other thrown failure.  A
response's body is captured through the views the client actually takes
of it: its bytes (`arrayBuffer()`), the error-object view that
`handleResponseErrors` reads (`{error?: string}` when the body is JSON),
and the list-endpoint shapes. -/

/-- An HTTP response as the client observes it. -/
structure HttpResponse where
  /-- `response.status`. -/
  status : Nat
  /-- `response.statusText`. -/
  statusText : String
  /-- `response.json()` viewed as `{error?: string}`: `none` when the body
  is not JSON (the parse throws), `some e` when it is, with `e` the
  optional `error` field. -/
  errorField : Option (Option String)
  /-- `response.arrayBuffer()`: the raw body bytes. -/
  bytes : List (Fin 256)
  /-- `response.headers.get` (`none` is JS `null`). -/
  headers : String → Option String
  /-- The body parsed as `{voices: VoiceData[]}` when it has that shape. -/
  voicesJson : Option (List VoiceData) := none
  /-- The body parsed as `{languages: LanguageData[]}` when it has that shape. -/
  languagesJson : Option (List LanguageData) := none

/-- `response.ok`: status in the 2xx range. -/
def HttpResponse.ok (r : HttpResponse) : Prop :=
  200 ≤ r.status ∧ r.status ≤ 299

instance (r : HttpResponse) : Decidable r.ok := by
  unfold HttpResponse.ok; infer_instance

/-- The outcome of one `fetch` call. -/
inductive FetchOutcome where
  /-- `fetch` resolved with a response. -/
  | success (r : HttpResponse)
  /-- The abort controller fired (request timeout): `fetch` rejected with
  an error whose `name` is `"AbortError"`. -/
  | abortError
  /-- `fetch` rejected with some other error (e.g. a network `TypeError`). -/
  | failure (name msg : String)

/-- The `errorMessage` computed by `handleResponseErrors`: the body's
`error` field via `||` when the body is JSON (`errorData.error || 'API
error: ...'`), else `response.statusText || 'API error: ...'` from the
`catch` branch. -/
def responseErrorMessage (r : HttpResponse) : String :=
  let fallback := "API error: " ++ toString r.status
  match r.errorField with
  | some e => jsOrStr e fallback
  | none => jsOrStr (some r.statusText) fallback

/-- `handleResponseErrors`: returns normally on 2xx, otherwise throws the
typed error selected by the status-code `switch`. -/
def handleResponseErrors (r : HttpResponse) : Except LVError Unit :=
  if r.ok then .ok ()
  else
    let errorMessage := responseErrorMessage r
    if r.status = 401 then .error (.authentication errorMessage)
    else if r.status = 429 then .error (.rateLimit errorMessage)
    else if r.status = 400 then .error (.validation errorMessage)
    else .error (.api errorMessage (some r.status))

/-- The JSON-path `request` helper: checks errors, then hands the
response (data and headers) to the caller.  An abort becomes
`APIError('Request timeout', 408)`; any other fetch failure is rethrown
unchanged. -/
def request (o : FetchOutcome) : Except LVError HttpResponse :=
  match o with
  | .success r =>
      match handleResponseErrors r with
      | .ok _ => .ok r
      | .error e => .error e
  | .abortError => .error (.api "Request timeout" (some 408))
  | .failure name msg => .error (.jsError name msg)

/-- The binary-path `requestBinary` helper: same error handling, result is
the body bytes plus the headers. -/
def requestBinary (o : FetchOutcome) :
    Except LVError (List (Fin 256) × (String → Option String)) :=
  match o with
  | .success r =>
      match handleResponseErrors r with
      | .ok _ => .ok (r.bytes, r.headers)
      | .error e => .error e
  | .abortError => .error (.api "Request timeout" (some 408))
  | .failure name msg => .error (.jsError name msg)

/-- `parseFloatHeader`: `null` and `""` give `undefined`; otherwise the
first `'s'` is removed and the rest parsed, `NaN` giving `undefined`. -/
def parseFloatHeader (value : Option String) : Option ℚ :=
  match value with
  | none => none
  | some s => if s = "" then none else jsParseFloat (String.mk (removeFirstChar 's' s.data))

/-- `parseIntHeader`: `null` and `""` give `undefined`; otherwise
`parseInt(value, 10)`, `NaN` giving `undefined`. -/
def parseIntHeader (value : Option String) : Option Int :=
  match value with
  | none => none
  | some s => if s = "" then none else jsParseInt s

/-- `GenerateResponse`: the audio bytes plus the metadata recovered from
response headers. -/
structure GenerateResponse where
  audioData : List (Fin 256)
  duration : Option ℚ := none
  generationTime : Option ℚ := none
  charactersProcessed : Option Int := none
  deriving DecidableEq, Repr

/-- `GenerateResponse.toBase64`. -/
def GenerateResponse.toBase64 (r : GenerateResponse) : String :=
  bufferToBase64 r.audioData

/-- Modelled from the spec: `VoiceCloningRequest` is imported by
`client.ts` from `models.ts` and consumed by `generateCloned`, but its
class definition is missing from the repository snapshot.  Per the spec
it holds "text plus a base64-encoded reference audio sample plus speed;
same text-length and speed invariants; no language or voice-id field". -/
structure VoiceCloningRequest where
  text : String
  voice_sample_base64 : String
  speed : ℚ
  deriving DecidableEq, Repr

/-- Modelled from the spec: the `VoiceCloningRequest` constructor, with
the same text-length and speed invariants as `GenerateRequest.mk?` and no
voice or language defaulting. -/
def VoiceCloningRequest.mk? (text : Option String) (voice_sample_base64 : String)
    (speed : Option ℚ) : Except String VoiceCloningRequest :=
  if text = none ∨ text = some "" then
    .error "Text is required"
  else
    let t := text.getD ""
    if t.length > 5000 then
      .error "Text must be 5000 characters or less"
    else
      let sp := jsNullish speed 1
      if sp < mkRat 1 2 ∨ sp > 2 then
        .error "Speed must be between 0.5 and 2.0"
      else
        .ok { text := t, voice_sample_base64 := voice_sample_base64, speed := sp }

/-! ## The client (`LangVoiceClient`)

The network is a `NetworkOracle`: one `fetch` outcome per endpoint, keyed
by the serialized request body the client would POST, so that equal
request objects are guaranteed equal responses.  The client's `apiKey`,
`baseUrl` and `timeout` configure the real `fetch` call and are absorbed
into the oracle. -/

/-- One `fetch` outcome per API endpoint. -/
structure NetworkOracle where
  /-- POST `/tts/generate` with the serialized `GenerateRequest`. -/
  generate : GenerateRequest → FetchOutcome
  /-- POST `/tts/multi-voice-text`. -/
  multiVoice : MultiVoiceRequest → FetchOutcome
  /-- POST `/tts/generate-cloned`. -/
  cloned : VoiceCloningRequest → FetchOutcome
  /-- GET `/tts/voices`. -/
  voices : FetchOutcome
  /-- GET `/tts/languages`. -/
  languages : FetchOutcome

/-- The constructed client configuration. -/
structure LangVoiceClient where
  apiKey : String
  baseUrl : String
  timeout : Nat
  deriving DecidableEq, Repr

/-- The `LangVoiceClient` constructor: key from options or the
`LANGVOICE_API_KEY` environment variable (`envKey`), else an
`AuthenticationError`; `baseUrl` and `timeout` defaulted with `||`. -/
def LangVoiceClient.mk? (apiKey : Option String) (baseUrl : Option String)
    (timeout : Option Nat) (envKey : Option String) : Except LVError LangVoiceClient :=
  if jsOrStr apiKey (jsOrStr envKey "") = "" then
    .error (.authentication
      "API key is required. Pass apiKey in options or set LANGVOICE_API_KEY environment variable.")
  else
    .ok { apiKey := jsOrStr apiKey (jsOrStr envKey "")
          baseUrl := jsOrStr baseUrl "https://www.langvoice.pro/api"
          timeout := jsOrNat timeout 60000 }

/-- Build the `GenerateResponse` from a binary result (shared tail of
`generate`, `generateMultiVoice` and `generateCloned`). -/
def mkGenerateResponse (bytes : List (Fin 256)) (headers : String → Option String) :
    GenerateResponse :=
  { audioData := bytes
    duration := parseFloatHeader (headers "X-Audio-Duration")
    generationTime := parseFloatHeader (headers "X-Generation-Time")
    charactersProcessed := parseIntHeader (headers "X-Characters-Processed") }

/-- `client.generate(options)`: builds the `GenerateRequest` (its plain
`Error`s propagate), POSTs it, and wraps the binary result.  `text` is
`Option String` because adapters can forward a runtime-`undefined`
`args.text`. -/
def LangVoiceClient.generate (net : NetworkOracle) (text : Option String)
    (voice : Option String) (language : Option String) (speed : Option ℚ) :
    Except LVError GenerateResponse := do
  let req ← (GenerateRequest.mk? text voice language speed).mapError (LVError.jsError "Error")
  let res ← requestBinary (net.generate req)
  .ok (mkGenerateResponse res.1 res.2)

/-- `client.generateMultiVoice(options)`. -/
def LangVoiceClient.generateMultiVoice (net : NetworkOracle) (text : Option String)
    (language : Option String) (speed : Option ℚ) : Except LVError GenerateResponse := do
  let req ← (MultiVoiceRequest.mk? text language speed).mapError (LVError.jsError "Error")
  let res ← requestBinary (net.multiVoice req)
  .ok (mkGenerateResponse res.1 res.2)

/-- `client.generateCloned(options)` (request model is spec-modelled). -/
def LangVoiceClient.generateCloned (net : NetworkOracle) (text : Option String)
    (voiceSampleBase64 : String) (speed : Option ℚ) : Except LVError GenerateResponse := do
  let req ← (VoiceCloningRequest.mk? text voiceSampleBase64 speed).mapError
    (LVError.jsError "Error")
  let res ← requestBinary (net.cloned req)
  .ok (mkGenerateResponse res.1 res.2)

/-- `client.listVoices()`: JSON path; a 2xx body that does not have the
`{voices: [...]}` shape makes the body access throw (modelled as a plain
JS `TypeError`). -/
def LangVoiceClient.listVoices (net : NetworkOracle) : Except LVError (List VoiceData) := do
  let r ← request net.voices
  match r.voicesJson with
  | some vs => .ok vs
  | none => .error (.jsError "TypeError" "Cannot read properties of undefined")

/-- `client.listLanguages()`. -/
def LangVoiceClient.listLanguages (net : NetworkOracle) :
    Except LVError (List LanguageData) := do
  let r ← request net.languages
  match r.languagesJson with
  | some ls => .ok ls
  | none => .error (.jsError "TypeError" "Cannot read properties of undefined")

/-! ## `JSON.parse` for tool-call argument strings

The OpenAI and AutoGen adapters call `JSON.parse` on the LLM-provided
argument string.  Tool arguments are flat JSON objects of primitives (see
every tool schema in `src/tools`), so the model implements that fragment:
an object whose values are strings (without escape sequences, which no
SDK input uses), numbers, booleans or `null`.  An input outside this
fragment makes the parse throw, exactly as `JSON.parse` throws a
`SyntaxError` on malformed input. -/

/-- A primitive JSON value. -/
inductive JsonPrim where
  | str (s : String)
  | num (q : ℚ)
  | bool (b : Bool)
  | null
  deriving DecidableEq, Repr

/-- Read a string literal body up to the closing quote. -/
def takeStringBody : List Char → Option (List Char × List Char)
  | [] => none
  | c :: rest =>
      if c = '"' then some ([], rest)
      else if c = '\\' then none
      else do
        let p ← takeStringBody rest
        some (c :: p.1, p.2)

/-- Parse a JSON number token (`-? digits (. digits)?`). -/
def parseJsonNumber (cs : List Char) : Option (ℚ × List Char) :=
  let signAndRest : Bool × List Char :=
    match cs with
    | '-' :: r => (true, r)
    | r => (false, r)
  let ip := takeDigits signAndRest.2
  if ip.1 = [] then none
  else
    match ip.2 with
    | '.' :: r =>
        let fp := takeDigits r
        if fp.1 = [] then none
        else
          let mag : ℚ :=
            mkRat (Int.ofNat (digitsVal ip.1 * 10 ^ fp.1.length + digitsVal fp.1))
              (10 ^ fp.1.length)
          some (if signAndRest.1 then -mag else mag, fp.2)
    | r =>
        let mag : ℚ := mkRat (Int.ofNat (digitsVal ip.1)) 1
        some (if signAndRest.1 then -mag else mag, r)

/-- Parse one primitive JSON value. -/
def parseJsonValue (cs : List Char) : Option (JsonPrim × List Char) :=
  match skipWs cs with
  | '"' :: r => do
      let p ← takeStringBody r
      some (.str (String.mk p.1), p.2)
  | 't' :: 'r' :: 'u' :: 'e' :: r => some (.bool true, r)
  | 'f' :: 'a' :: 'l' :: 's' :: 'e' :: r => some (.bool false, r)
  | 'n' :: 'u' :: 'l' :: 'l' :: r => some (.null, r)
  | r => do
      let p ← parseJsonNumber r
      some (.num p.1, p.2)

/-- Parse the `"key": value (, "key": value)* }` tail of an object
(fuel-bounded loop). -/
def parseJsonPairs : Nat → List Char → Option (List (String × JsonPrim) × List Char)
  | 0, _ => none
  | fuel + 1, cs => do
      let key ← match skipWs cs with
        | '"' :: r => takeStringBody r
        | _ => none
      let rest1 := key.2
      let rest2 ← match skipWs rest1 with
        | ':' :: r => some r
        | _ => none
      let v ← parseJsonValue rest2
      match skipWs v.2 with
      | ',' :: r => do
          let tail ← parseJsonPairs fuel r
          some ((String.mk key.1, v.1) :: tail.1, tail.2)
      | '}' :: r => some ([(String.mk key.1, v.1)], r)
      | _ => none

/-- `JSON.parse` on a flat-object argument string: `Except.error` is the
thrown `SyntaxError`. -/
def jsonParse (s : String) : Except String (List (String × JsonPrim)) :=
  let cs := skipWs s.data
  match cs with
  | '{' :: r =>
      match skipWs r with
      | '}' :: rest =>
          if skipWs rest = [] then .ok [] else .error "SyntaxError: Unexpected token"
      | r2 =>
          match parseJsonPairs (r2.length + 1) r2 with
          | some p => if skipWs p.2 = [] then .ok p.1 else .error "SyntaxError: Unexpected token"
          | none => .error "SyntaxError: Unexpected token"
  | _ => .error "SyntaxError: Unexpected token"

/-! ## Tool arguments (`args: Record<string, unknown>`)

The adapters read the fields `text`, `voice`, `language`, `speed` and
`output_file` from the argument bag, each at its schema type; a missing
field is `undefined`. -/

/-- The argument bag a tool handler receives. -/
structure ToolArgs where
  text : Option String := none
  voice : Option String := none
  language : Option String := none
  speed : Option ℚ := none
  output_file : Option String := none
  deriving DecidableEq, Repr

/-- Field lookup at string type. -/
def lookupStr (pairs : List (String × JsonPrim)) (k : String) : Option String :=
  match pairs.lookup k with
  | some (.str s) => some s
  | _ => none

/-- Field lookup at number type. -/
def lookupNum (pairs : List (String × JsonPrim)) (k : String) : Option ℚ :=
  match pairs.lookup k with
  | some (.num q) => some q
  | _ => none

/-- View a parsed argument object as a `ToolArgs` bag. -/
def toToolArgs (pairs : List (String × JsonPrim)) : ToolArgs :=
  { text := lookupStr pairs "text"
    voice := lookupStr pairs "voice"
    language := lookupStr pairs "language"
    speed := lookupNum pairs "speed"
    output_file := lookupStr pairs "output_file" }

/-! ## Shared tool constants (`src/tools/types.ts`) -/

/-- `TOOL_NAMES.TTS`. -/
def TOOL_TTS : String := "langvoice_text_to_speech"
/-- `TOOL_NAMES.MULTI_VOICE`. -/
def TOOL_MULTI_VOICE : String := "langvoice_multi_voice_speech"
/-- `TOOL_NAMES.LIST_VOICES`. -/
def TOOL_LIST_VOICES : String := "langvoice_list_voices"
/-- `TOOL_NAMES.LIST_LANGUAGES`. -/
def TOOL_LIST_LANGUAGES : String := "langvoice_list_languages"

/-- The `{id, name}` projection the adapters apply to voices/languages. -/
structure IdName where
  id : String
  name : String
  deriving DecidableEq, Repr

/-! ## File-system oracle

`fs.writeFileSync` (together with the dynamic `import('fs')` that
precedes it) either returns or throws, decided by the environment for a
given path.  A successful write is additionally reported as a
`WriteEvent` carrying the written bytes. -/

/-- Whether writing at a given path succeeds. -/
abbrev FsOracle := String → Except String Unit

/-- A performed file write: target path and written bytes. -/
abbrev WriteEvent := String × List (Fin 256)

/-! ## Generic adapter (`src/tools/generic-tools.ts`, `LangVoiceToolkit`) -/

/-- `TTSToolResult` (also the envelope of `multiVoiceSpeech`). -/
structure TTSToolResult where
  success : Bool
  error : Option String := none
  audioBase64 : Option String := none
  duration : Option ℚ := none
  charactersProcessed : Option Int := none
  deriving DecidableEq, Repr

/-- `VoicesToolResult`. -/
structure VoicesToolResult where
  success : Bool
  error : Option String := none
  voices : Option (List IdName) := none
  deriving DecidableEq, Repr

/-- `LanguagesToolResult`. -/
structure LanguagesToolResult where
  success : Bool
  error : Option String := none
  languages : Option (List IdName) := none
  deriving DecidableEq, Repr

namespace LangVoiceToolkit

/-- `toolkit.textToSpeech(params)`: defaults with `||`, delegates to
`client.generate`, catches every error into the envelope. -/
def textToSpeech (net : NetworkOracle) (params : ToolArgs) : TTSToolResult :=
  match LangVoiceClient.generate net params.text (some (jsOrStr params.voice "heart"))
      (some (jsOrStr params.language "american_english")) (some (jsOrQ params.speed 1)) with
  | .ok r =>
      { success := true, audioBase64 := some r.toBase64, duration := r.duration
        charactersProcessed := r.charactersProcessed }
  | .error e => { success := false, error := some e.message }

/-- `toolkit.multiVoiceSpeech(params)`. -/
def multiVoiceSpeech (net : NetworkOracle) (params : ToolArgs) : TTSToolResult :=
  match LangVoiceClient.generateMultiVoice net params.text
      (some (jsOrStr params.language "american_english")) (some (jsOrQ params.speed 1)) with
  | .ok r => { success := true, audioBase64 := some r.toBase64, duration := r.duration }
  | .error e => { success := false, error := some e.message }

/-- `toolkit.listVoices()`. -/
def listVoices (net : NetworkOracle) : VoicesToolResult :=
  match LangVoiceClient.listVoices net with
  | .ok vs => { success := true, voices := some (vs.map fun v => ⟨v.id, v.name⟩) }
  | .error e => { success := false, error := some e.message }

/-- `toolkit.listLanguages()`. -/
def listLanguages (net : NetworkOracle) : LanguagesToolResult :=
  match LangVoiceClient.listLanguages net with
  | .ok ls => { success := true, languages := some (ls.map fun l => ⟨l.id, l.name⟩) }
  | .error e => { success := false, error := some e.message }

end LangVoiceToolkit

/-- The union result type of `handleToolCall` (`ToolResult | TTSToolResult
| VoicesToolResult | LanguagesToolResult`). -/
inductive GenericResult where
  | ttsRes (r : TTSToolResult)
  | voicesRes (r : VoicesToolResult)
  | languagesRes (r : LanguagesToolResult)
  | plain (success : Bool) (error : Option String)
  deriving DecidableEq, Repr

/-- The `success` flag of any `handleToolCall` result. -/
def GenericResult.success : GenericResult → Bool
  | .ttsRes r => r.success
  | .voicesRes r => r.success
  | .languagesRes r => r.success
  | .plain s _ => s

/-- The `error` field of any `handleToolCall` result. -/
def GenericResult.errorMsg : GenericResult → Option String
  | .ttsRes r => r.error
  | .voicesRes r => r.error
  | .languagesRes r => r.error
  | .plain _ e => e

/-- `toolkit.handleToolCall(toolName, args)`: dispatch by name; the
multi-voice branch forwards only `text`, `language` and `speed`. -/
def LangVoiceToolkit.handleToolCall (net : NetworkOracle) (toolName : String)
    (args : ToolArgs) : GenericResult :=
  if toolName = TOOL_TTS then
    .ttsRes (LangVoiceToolkit.textToSpeech net args)
  else if toolName = TOOL_MULTI_VOICE then
    .ttsRes (LangVoiceToolkit.multiVoiceSpeech net
      { text := args.text, language := args.language, speed := args.speed })
  else if toolName = TOOL_LIST_VOICES then
    .voicesRes (LangVoiceToolkit.listVoices net)
  else if toolName = TOOL_LIST_LANGUAGES then
    .languagesRes (LangVoiceToolkit.listLanguages net)
  else
    .plain false (some ("Unknown tool: " ++ toolName))

/-- `toolkit.saveAudio(result, outputPath)`: `false` (without throwing)
when the result is unusable (`!result.success || !result.audioBase64`,
where an empty base64 string is falsy too) or the write fails, `true`
with the decoded bytes written otherwise (`Buffer.from(..,'base64')` is
lenient, hence the `getD []`). -/
def LangVoiceToolkit.saveAudio (fs : FsOracle) (result : TTSToolResult)
    (outputPath : String) : Bool × Option WriteEvent :=
  if result.success = false ∨ result.audioBase64 = none ∨ result.audioBase64 = some "" then
    (false, none)
  else
    match fs outputPath with
    | .ok _ =>
        (true, some (outputPath, (decodeGroups (result.audioBase64.getD "").data).getD []))
    | .error _ => (false, none)

/-! ## OpenAI adapter (`src/tools/openai-tools.ts`) -/

/-- `ToolCallResult` (the object `handleOpenAIToolCall` serializes). -/
structure ToolCallResult where
  success : Bool
  audioBase64 : Option String := none
  duration : Option ℚ := none
  charactersProcessed : Option Int := none
  voices : Option (List IdName) := none
  languages : Option (List IdName) := none
  error : Option String := none
  deriving DecidableEq, Repr

/-- `handleOpenAIToolCall(toolName, args, apiKey)`: the whole switch is
inside one `try`, so every raised error (and the unknown-name default)
lands in the serialized envelope; the model returns the result object
that `JSON.stringify` would serialize. -/
def handleOpenAIToolCall (net : NetworkOracle) (toolName : String)
    (args : ToolArgs) : ToolCallResult :=
  if toolName = TOOL_TTS then
    match LangVoiceClient.generate net args.text (some (jsOrStr args.voice "heart"))
        (some (jsOrStr args.language "american_english")) (some (jsOrQ args.speed 1)) with
    | .ok r =>
        { success := true, audioBase64 := some r.toBase64, duration := r.duration
          charactersProcessed := r.charactersProcessed }
    | .error e => { success := false, error := some e.message }
  else if toolName = TOOL_MULTI_VOICE then
    match LangVoiceClient.generateMultiVoice net args.text
        (some (jsOrStr args.language "american_english")) (some (jsOrQ args.speed 1)) with
    | .ok r => { success := true, audioBase64 := some r.toBase64, duration := r.duration }
    | .error e => { success := false, error := some e.message }
  else if toolName = TOOL_LIST_VOICES then
    match LangVoiceClient.listVoices net with
    | .ok vs => { success := true, voices := some (vs.map fun v => ⟨v.id, v.name⟩) }
    | .error e => { success := false, error := some e.message }
  else if toolName = TOOL_LIST_LANGUAGES then
    match LangVoiceClient.listLanguages net with
    | .ok ls => { success := true, languages := some (ls.map fun l => ⟨l.id, l.name⟩) }
    | .error e => { success := false, error := some e.message }
  else
    { success := false, error := some ("Unknown tool: " ++ toolName) }

/-- `LangVoiceOpenAITools.handleCall(toolCall)`:
`JSON.parse(toolCall.function.arguments)` runs *outside* any `try`, so a
malformed argument string throws out of `handleCall`; otherwise the
parsed bag goes to `handleOpenAIToolCall` (whose serialized result is
parsed back — modelled as the result object itself). -/
def LangVoiceOpenAITools.handleCall (net : NetworkOracle) (name : String)
    (argumentsStr : String) : Except String ToolCallResult :=
  match jsonParse argumentsStr with
  | .error e => .error e
  | .ok pairs => .ok (handleOpenAIToolCall net name (toToolArgs pairs))

/-! ## AutoGen adapter (`src/tools/autogen-tools.ts`) -/

/-- `LangVoiceAutoGenTools` construction-time configuration:
`outputFile := options.outputFile || 'output.mp3'`,
`autoSave := options.autoSave ?? true`. -/
structure AGConfig where
  outputFile : String
  autoSave : Bool
  deriving DecidableEq, Repr

/-- The `LangVoiceAutoGenTools` constructor's defaulting. -/
def AGConfig.ofOptions (outputFile : Option String) (autoSave : Option Bool) : AGConfig :=
  { outputFile := jsOrStr outputFile "output.mp3", autoSave := autoSave.getD true }

/-- The object a handler passes to `JSON.stringify` (union of the shapes
returned by the four handlers). -/
structure AGResult where
  success : Bool
  message : Option String := none
  error : Option String := none
  duration : Option ℚ := none
  charactersProcessed : Option Int := none
  outputFile : Option String := none
  audioBase64Preview : Option String := none
  audioBase64 : Option String := none
  voices : Option (List IdName) := none
  languages : Option (List IdName) := none
  count : Option Nat := none
  deriving DecidableEq, Repr

namespace LangVoiceAutoGenTools

/-- `textToSpeechHandler(args)`: generate; then, under `autoSave`, try the
file write, degrading (still `success: true`) to a 100-character base64
preview when the write throws; the error branch catches everything the
generate raised. -/
def textToSpeechHandler (net : NetworkOracle) (fs : FsOracle) (cfg : AGConfig)
    (args : ToolArgs) : AGResult × Option WriteEvent :=
  match LangVoiceClient.generate net args.text (some (jsOrStr args.voice "heart"))
      (some (jsOrStr args.language "american_english")) (some (jsOrQ args.speed 1)) with
  | .error e => ({ success := false, error := some e.message }, none)
  | .ok r =>
      let outputPath := jsOrStr args.output_file cfg.outputFile
      if cfg.autoSave then
        match fs outputPath with
        | .ok _ =>
            ({ success := true
               message := some ("Speech generated and saved to " ++ outputPath)
               duration := r.duration, charactersProcessed := r.charactersProcessed
               outputFile := some outputPath },
             some (outputPath, r.audioData))
        | .error _ =>
            ({ success := true
               message := some "Speech generated (file save not available in this environment)"
               duration := r.duration, charactersProcessed := r.charactersProcessed
               audioBase64Preview := some (r.toBase64.take 100 ++ "...") },
             none)
      else
        ({ success := true, duration := r.duration
           charactersProcessed := r.charactersProcessed
           audioBase64 := some r.toBase64 }, none)

/-- `multiVoiceHandler(args)`. -/
def multiVoiceHandler (net : NetworkOracle) (fs : FsOracle) (cfg : AGConfig)
    (args : ToolArgs) : AGResult × Option WriteEvent :=
  match LangVoiceClient.generateMultiVoice net args.text
      (some (jsOrStr args.language "american_english")) (some (jsOrQ args.speed 1)) with
  | .error e => ({ success := false, error := some e.message }, none)
  | .ok r =>
      let outputPath := jsOrStr args.output_file cfg.outputFile
      if cfg.autoSave then
        match fs outputPath with
        | .ok _ =>
            ({ success := true
               message := some ("Multi-voice speech generated and saved to " ++ outputPath)
               duration := r.duration, outputFile := some outputPath },
             some (outputPath, r.audioData))
        | .error _ =>
            ({ success := true, message := some "Multi-voice speech generated"
               duration := r.duration }, none)
      else
        ({ success := true, duration := r.duration
           audioBase64 := some r.toBase64 }, none)

/-- `listVoicesHandler()`. -/
def listVoicesHandler (net : NetworkOracle) : AGResult :=
  match LangVoiceClient.listVoices net with
  | .ok vs =>
      { success := true, voices := some (vs.map fun v => ⟨v.id, v.name⟩)
        count := some vs.length }
  | .error e => { success := false, error := some e.message }

/-- `listLanguagesHandler()`. -/
def listLanguagesHandler (net : NetworkOracle) : AGResult :=
  match LangVoiceClient.listLanguages net with
  | .ok ls =>
      { success := true, languages := some (ls.map fun l => ⟨l.id, l.name⟩)
        count := some ls.length }
  | .error e => { success := false, error := some e.message }

end LangVoiceAutoGenTools

/-- An `AutoGenFunctionCall.arguments`: already-parsed object or JSON
string. -/
inductive AGArgs where
  | obj (a : ToolArgs)
  | str (s : String)

/-- What `handleFunctionCall` hands back when it does not throw: the
JSON string of a real handler's (or the unknown-name branch's) envelope
together with any write event, or — when the object lookup found an
inherited `Object.prototype` member and the source called it — that
call's un-enveloped result: `Object.prototype.toString` invoked with an
`undefined` `this` gives the plain string `"[object Undefined]"`, and
`constructor` (the `Object` function) gives the argument object back. -/
inductive AGReturn where
  | json (r : AGResult) (w : Option WriteEvent)
  | rawString (s : String)
  | rawObject (a : ToolArgs)
  deriving DecidableEq, Repr

/-- The property names `functionMap[name]` resolves *without* an own
property: `getFunctionMap()` returns a plain object literal, so a
bracket lookup also walks up to `Object.prototype`. -/
def objectPrototypeKeys : List String :=
  ["constructor", "hasOwnProperty", "isPrototypeOf", "propertyIsEnumerable",
   "toLocaleString", "toString", "valueOf", "__proto__",
   "__defineGetter__", "__defineSetter__", "__lookupGetter__", "__lookupSetter__"]

/-- `handler(args)` when the lookup hit an inherited `Object.prototype`
member (strict mode, so `this` is `undefined`): `toString` returns
`"[object Undefined]"`; `constructor` (`Object`) returns the argument
object; every other member — including the non-callable `__proto__`
value — throws a `TypeError` (whose exact engine message is not
modelled). -/
def protoMemberCall (name : String) (args : ToolArgs) : Except String AGReturn :=
  if name = "toString" then .ok (.rawString "[object Undefined]")
  else if name = "constructor" then .ok (.rawObject args)
  else .error "TypeError"

/-- `handleFunctionCall(call)`: a string `arguments` goes through
`JSON.parse` *before* any handler lookup and outside any `try`, so a
malformed string throws; then `functionMap[call.name]` is looked up —
the four own keys dispatch to their handlers, a name inherited from
`Object.prototype` makes the truthy inherited member pass the
`!handler` guard and be called (`protoMemberCall`), and only a name
found nowhere yields the unknown-function envelope. -/
def LangVoiceAutoGenTools.handleFunctionCall (net : NetworkOracle) (fs : FsOracle)
    (cfg : AGConfig) (name : String) (arguments : AGArgs) :
    Except String AGReturn := do
  let args ← match arguments with
    | .obj a => Except.ok a
    | .str s => (jsonParse s).map toToolArgs
  if name = TOOL_TTS then
    .ok (.json (LangVoiceAutoGenTools.textToSpeechHandler net fs cfg args).1
      (LangVoiceAutoGenTools.textToSpeechHandler net fs cfg args).2)
  else if name = TOOL_MULTI_VOICE then
    .ok (.json (LangVoiceAutoGenTools.multiVoiceHandler net fs cfg args).1
      (LangVoiceAutoGenTools.multiVoiceHandler net fs cfg args).2)
  else if name = TOOL_LIST_VOICES then
    .ok (.json (LangVoiceAutoGenTools.listVoicesHandler net) none)
  else if name = TOOL_LIST_LANGUAGES then
    .ok (.json (LangVoiceAutoGenTools.listLanguagesHandler net) none)
  else if name ∈ objectPrototypeKeys then
    protoMemberCall name args
  else
    .ok (.json { success := false, error := some ("Unknown function: " ++ name) } none)

/-- `LangVoiceAutoGenTools.saveAudio(result, outputPath?)`: `false`
without throwing when the result is unusable (an empty base64 string is
falsy too) or the write fails. -/
def LangVoiceAutoGenTools.saveAudio (fs : FsOracle) (cfg : AGConfig)
    (result : TTSToolResult) (outputPath : Option String) : Bool × Option WriteEvent :=
  if result.success = false ∨ result.audioBase64 = none ∨ result.audioBase64 = some "" then
    (false, none)
  else
    let path := jsOrStr outputPath cfg.outputFile
    match fs path with
    | .ok _ => (true, some (path, (decodeGroups (result.audioBase64.getD "").data).getD []))
    | .error _ => (false, none)

/-! ## LangChain adapter (`src/tools/langchain-tools.ts`)

The tools return human-readable template strings; the model keeps each
return site's *data* in a constructor: `savedOk` is the
"✅ ... saved to <path>! Duration: <d>s, Characters: <c>" string,
`generatedPreview` the "✅ Speech generated! Duration: <d>s. Audio
(base64): <preview>" string, `errorOut` the "❌ Error generating speech:
<msg>" string. -/

/-- The data content of a `LangVoiceTTSTool.call` result string. -/
inductive LCOutput where
  | savedOk (path : String) (duration : Option ℚ) (charactersProcessed : Option Int)
  | generatedPreview (duration : Option ℚ) (preview : String)
  | errorOut (msg : String)
  deriving DecidableEq, Repr

/-- `LangVoiceTTSTool`'s configuration: the constructor forces
`outputFile := options.outputFile || 'output.mp3'`. -/
structure LangVoiceTTSTool where
  outputFile : Option String
  deriving DecidableEq, Repr

/-- The `LangVoiceTTSTool` constructor. -/
def LangVoiceTTSTool.ofOptions (outputFile : Option String) : LangVoiceTTSTool :=
  { outputFile := some (jsOrStr outputFile "output.mp3") }

/-- A LangChain tool input: raw string (treated as the text) or a
structured argument object. -/
inductive LCInput where
  | strIn (s : String)
  | objIn (a : ToolArgs)

/-- `LangVoiceTTSTool.call(input)`: everything is inside one `try`; a
write failure inside the inner `try` degrades to the preview string while
keeping `success`. -/
def LangVoiceTTSTool.call (tool : LangVoiceTTSTool) (net : NetworkOracle)
    (fs : FsOracle) (input : LCInput) : LCOutput × Option WriteEvent :=
  let params : ToolArgs :=
    match input with
    | .strIn s => { text := some s }
    | .objIn a => a
  match LangVoiceClient.generate net params.text (some (jsOrStr params.voice "heart"))
      (some (jsOrStr params.language "american_english")) (some (jsOrQ params.speed 1)) with
  | .error e => (.errorOut ("Error generating speech: " ++ e.message), none)
  | .ok r =>
      match tool.outputFile with
      | some path =>
          (match fs path with
           | .ok _ => (.savedOk path r.duration r.charactersProcessed, some (path, r.audioData))
           | .error _ => (.generatedPreview r.duration (r.toBase64.take 100 ++ "..."), none))
      | none => (.generatedPreview r.duration (r.toBase64.take 100 ++ "..."), none)

/-! ## Helper lemmas -/

/-- A string has length zero exactly when it is empty. -/
theorem string_length_eq_zero_iff (s : String) : s.length = 0 ↔ s = "" := by
  cases s with
  | mk data =>
      constructor
      · intro h
        have hd : data = [] := List.length_eq_zero.mp h
        subst hd
        rfl
      · intro h
        have hd : data = [] := congrArg String.data h
        subst hd
        rfl

/-! ## Claim theorems -/

/-- The constructors' literal `0.5` as a rational. -/
theorem mkRat_one_two : (mkRat 1 2 : ℚ) = 1/2 := by
  norm_num [Rat.mkRat_eq_div]

/-- `GenerateRequest` construction succeeds exactly on valid input. -/
theorem genReq_ok_iff (text : String) (v l : Option String) (s : Option ℚ) :
    (∃ r, GenerateRequest.mk? (some text) v l s = .ok r) ↔
      (1 ≤ text.length ∧ text.length ≤ 5000 ∧
        1/2 ≤ jsNullish s 1 ∧ jsNullish s 1 ≤ 2) := by
  have hne : text ≠ "" → 1 ≤ text.length := by
    intro h
    have := (string_length_eq_zero_iff text).not.mpr h
    omega
  unfold GenerateRequest.mk?
  simp only [Option.some.injEq, reduceCtorEq, false_or, Option.getD_some]
  by_cases h0 : text = ""
  · subst h0
    simp
  · rw [if_neg h0]
    by_cases h1 : text.length > 5000
    · rw [if_pos h1]
      simp
      omega
    · rw [if_neg h1]
      by_cases h2 : jsNullish s 1 < mkRat 1 2 ∨ jsNullish s 1 > 2
      · rw [if_pos h2]
        constructor
        · rintro ⟨r, hr⟩
          simp at hr
        · rintro ⟨-, -, h3, h4⟩
          exfalso
          rw [mkRat_one_two] at h2
          rcases h2 with h2 | h2 <;> linarith
      · rw [if_neg h2]
        push_neg at h2
        rw [mkRat_one_two] at h2
        simp
        refine ⟨hne h0, by omega, ?_, ?_⟩ <;> linarith [h2.1, h2.2]

/-- `MultiVoiceRequest` construction succeeds exactly on valid input. -/
theorem multiReq_ok_iff (text : String) (l : Option String) (s : Option ℚ) :
    (∃ r, MultiVoiceRequest.mk? (some text) l s = .ok r) ↔
      (1 ≤ text.length ∧ text.length ≤ 5000 ∧
        1/2 ≤ jsNullish s 1 ∧ jsNullish s 1 ≤ 2) := by
  have hne : text ≠ "" → 1 ≤ text.length := by
    intro h
    have := (string_length_eq_zero_iff text).not.mpr h
    omega
  unfold MultiVoiceRequest.mk?
  simp only [Option.some.injEq, reduceCtorEq, false_or, Option.getD_some]
  by_cases h0 : text = ""
  · subst h0
    simp
  · rw [if_neg h0]
    by_cases h1 : text.length > 5000
    · rw [if_pos h1]
      simp
      omega
    · rw [if_neg h1]
      by_cases h2 : jsNullish s 1 < mkRat 1 2 ∨ jsNullish s 1 > 2
      · rw [if_pos h2]
        constructor
        · rintro ⟨r, hr⟩
          simp at hr
        · rintro ⟨-, -, h3, h4⟩
          exfalso
          rw [mkRat_one_two] at h2
          rcases h2 with h2 | h2 <;> linarith
      · rw [if_neg h2]
        push_neg at h2
        rw [mkRat_one_two] at h2
        simp
        refine ⟨hne h0, by omega, ?_, ?_⟩ <;> linarith [h2.1, h2.2]

/-- Every `GenerateRequest` construction failure carries a validation
message. -/
theorem genReq_error_mem (text : Option String) (v l : Option String) (s : Option ℚ) :
    ∀ m, GenerateRequest.mk? text v l s = .error m → m ∈ validationMessages := by
  intro m h
  unfold GenerateRequest.mk? at h
  by_cases c1 : text = none ∨ text = some ""
  · rw [if_pos c1] at h
    simp_all [validationMessages]
  · rw [if_neg c1] at h
    by_cases c2 : (text.getD "").length > 5000
    · rw [if_pos c2] at h
      simp_all [validationMessages]
    · rw [if_neg c2] at h
      by_cases c3 : jsNullish s 1 < mkRat 1 2 ∨ jsNullish s 1 > 2
      · rw [if_pos c3] at h
        simp_all [validationMessages]
      · rw [if_neg c3] at h
        simp_all

/-- Every `MultiVoiceRequest` construction failure carries a validation
message. -/
theorem multiReq_error_mem (text : Option String) (l : Option String) (s : Option ℚ) :
    ∀ m, MultiVoiceRequest.mk? text l s = .error m → m ∈ validationMessages := by
  intro m h
  unfold MultiVoiceRequest.mk? at h
  by_cases c1 : text = none ∨ text = some ""
  · rw [if_pos c1] at h
    simp_all [validationMessages]
  · rw [if_neg c1] at h
    by_cases c2 : (text.getD "").length > 5000
    · rw [if_pos c2] at h
      simp_all [validationMessages]
    · rw [if_neg c2] at h
      by_cases c3 : jsNullish s 1 < mkRat 1 2 ∨ jsNullish s 1 > 2
      · rw [if_pos c3] at h
        simp_all [validationMessages]
      · rw [if_neg c3] at h
        simp_all

/-- **C1.** Construction of a `GenerateRequest` or `MultiVoiceRequest`
from a text and an optional speed succeeds exactly when the text length
is in `[1, 5000]` and the effective speed (`1.0` when unspecified) is in
`[0.5, 2.0]`; otherwise it fails with one of the three validation error
messages and no request object is produced. -/
theorem request_construction_validation (text : String) (voice language : Option String)
    (speed : Option ℚ) :
    ((∃ r, GenerateRequest.mk? (some text) voice language speed = .ok r) ↔
      (1 ≤ text.length ∧ text.length ≤ 5000 ∧
        1/2 ≤ jsNullish speed 1 ∧ jsNullish speed 1 ≤ 2)) ∧
    ((∃ r, MultiVoiceRequest.mk? (some text) language speed = .ok r) ↔
      (1 ≤ text.length ∧ text.length ≤ 5000 ∧
        1/2 ≤ jsNullish speed 1 ∧ jsNullish speed 1 ≤ 2)) ∧
    (∀ m, GenerateRequest.mk? (some text) voice language speed = .error m →
      m ∈ validationMessages) ∧
    (∀ m, MultiVoiceRequest.mk? (some text) language speed = .error m →
      m ∈ validationMessages) :=
  ⟨genReq_ok_iff text voice language speed, multiReq_ok_iff text language speed,
   genReq_error_mem (some text) voice language speed,
   multiReq_error_mem (some text) language speed⟩

/-- Witness for C1 at text `"Hello"` with all options unspecified. -/
theorem request_construction_validation_witness :
    ∃ r, GenerateRequest.mk? (some "Hello") none none none = .ok r :=
  (request_construction_validation "Hello" none none none).1.mpr
    (by constructor
        · decide
        · refine ⟨by decide, ?_, ?_⟩ <;> norm_num [jsNullish])

/-- **C2 (counterexample).** The claim says the error message is the
server's `{error}` body field when present, *otherwise the status line*.
For a 500 response whose body is JSON without an `error` field and whose
status line is `"Internal Server Error"`, the code produces the message
`"API error: 500"`, not the status line. -/
theorem response_error_statusline_counterexample :
    handleResponseErrors
        { status := 500, statusText := "Internal Server Error"
          errorField := some none, bytes := [], headers := fun _ => none } =
      .error (.api "API error: 500" (some 500)) ∧
    ("API error: 500" : String) ≠ "Internal Server Error" := by
  constructor
  · rfl
  · decide

/-- **C2 (amended).** For every non-2xx response, the error *class* is
determined solely by the status code — 401 `AuthenticationError`, 429
`RateLimitError`, 400 `ValidationError`, anything else `APIError`
carrying that status — and the message is `responseErrorMessage`: the
JSON body's non-empty `error` field if any, else `API error: <status>`
when the body is JSON, else the non-empty status line, else
`API error: <status>`. -/
theorem response_error_mapping (r : HttpResponse) (h : ¬ r.ok) :
    (r.status = 401 →
      handleResponseErrors r = .error (.authentication (responseErrorMessage r))) ∧
    (r.status = 429 →
      handleResponseErrors r = .error (.rateLimit (responseErrorMessage r))) ∧
    (r.status = 400 →
      handleResponseErrors r = .error (.validation (responseErrorMessage r))) ∧
    (r.status ≠ 401 → r.status ≠ 429 → r.status ≠ 400 →
      handleResponseErrors r = .error (.api (responseErrorMessage r) (some r.status))) := by
  unfold handleResponseErrors
  rw [if_neg h]
  refine ⟨?_, ?_, ?_, ?_⟩
  · intro h1
    simp [h1]
  · intro h1
    simp [h1]
  · intro h1
    simp [h1]
  · intro h1 h2 h3
    simp [h1, h2, h3]

/-- Witness for C2 (amended) at a concrete 429 response. -/
theorem response_error_mapping_witness :
    handleResponseErrors
        { status := 429, statusText := "Too Many Requests"
          errorField := some (some "Rate limit exceeded"), bytes := []
          headers := fun _ => none } =
      .error (.rateLimit (responseErrorMessage
        { status := 429, statusText := "Too Many Requests"
          errorField := some (some "Rate limit exceeded"), bytes := []
          headers := fun _ => none })) :=
  (response_error_mapping _ (by decide)).2.1 rfl

/-! ### Shared concrete fixtures for witnesses -/

/-- Headers of a successful generation response carrying the metadata of
the spec's example. -/
def sampleHeaders : String → Option String := fun k =>
  if k = "X-Audio-Duration" then some "2.5s"
  else if k = "X-Characters-Processed" then some "100"
  else none

/-- A successful binary response with two audio bytes. -/
def sampleResponse : HttpResponse :=
  { status := 200, statusText := "OK", errorField := some none
    bytes := [72, 105], headers := sampleHeaders }

/-- An oracle answering every endpoint with `sampleResponse`. -/
def sampleNet : NetworkOracle :=
  { generate := fun _ => .success sampleResponse
    multiVoice := fun _ => .success sampleResponse
    cloned := fun _ => .success sampleResponse
    voices := .success sampleResponse
    languages := .success sampleResponse }

/-- **C3.** For every successful binary response whose metadata headers
carry duration `"2.5s"` and characters-processed `"100"`, `generate()`
returns a `GenerateResponse` with duration `2.5` and charactersProcessed
`100` (and the response body as its audio); and for every audio buffer
the base64 view round-trips: decoding `toBase64()` yields exactly the
buffer. -/
theorem generate_metadata_and_roundtrip
    (net : NetworkOracle) (text voice language : Option String) (speed : Option ℚ)
    (req : GenerateRequest) (hr : HttpResponse)
    (hreq : GenerateRequest.mk? text voice language speed = .ok req)
    (hnet : net.generate req = .success hr)
    (hok : hr.ok)
    (hdur : hr.headers "X-Audio-Duration" = some "2.5s")
    (hchars : hr.headers "X-Characters-Processed" = some "100") :
    (∃ resp, LangVoiceClient.generate net text voice language speed = .ok resp ∧
      resp.duration = some (2.5 : ℚ) ∧ resp.charactersProcessed = some 100 ∧
      resp.audioData = hr.bytes) ∧
    (∀ g : GenerateResponse, bufferFromBase64 g.toBase64 = some g.audioData) := by
  constructor
  · refine ⟨mkGenerateResponse hr.bytes hr.headers, ?_, ?_, ?_, ?_⟩
    · have h2 : handleResponseErrors hr = .ok () := by
        unfold handleResponseErrors
        rw [if_pos hok]
      unfold LangVoiceClient.generate
      rw [hreq]
      simp only [Except.mapError, Except.bind, bind]
      rw [hnet]
      simp only [requestBinary, h2]
    · simp only [mkGenerateResponse, hdur]
      have h : parseFloatHeader (some "2.5s") = some (mkRat 25 10) := by decide
      rw [h]
      norm_num [Rat.mkRat_eq_div]
    · simp only [mkGenerateResponse, hchars]
      decide
    · rfl
  · intro g
    exact decodeGroups_encodeGroups g.audioData

/-- Witness for C3 at a concrete request and response. -/
theorem generate_metadata_and_roundtrip_witness :
    (∃ resp, LangVoiceClient.generate sampleNet (some "Hi") none none none = .ok resp ∧
      resp.duration = some (2.5 : ℚ) ∧ resp.charactersProcessed = some 100 ∧
      resp.audioData = sampleResponse.bytes) ∧
    (∀ g : GenerateResponse, bufferFromBase64 g.toBase64 = some g.audioData) :=
  generate_metadata_and_roundtrip sampleNet (some "Hi") none none none
    { text := "Hi", voice := "heart", language := "american_english", speed := 1 }
    sampleResponse (by decide) rfl (by decide) rfl rfl

/-- **C7.** A timed-out request (the abort controller fired) surfaces on
both the JSON and the binary path as the distinct `APIError('Request
timeout', 408)` — not as the rethrown generic network failure — and a
client constructed without an explicit timeout uses 60000 ms. -/
theorem request_timeout_distinct :
    request .abortError = .error (.api "Request timeout" (some 408)) ∧
    requestBinary .abortError = .error (.api "Request timeout" (some 408)) ∧
    (∀ name msg, request (.failure name msg) = .error (.jsError name msg) ∧
      requestBinary (.failure name msg) = .error (.jsError name msg) ∧
      LVError.jsError name msg ≠ .api "Request timeout" (some 408)) ∧
    (∀ apiKey baseUrl envKey c,
      LangVoiceClient.mk? apiKey baseUrl none envKey = .ok c → c.timeout = 60000) := by
  refine ⟨rfl, rfl, ?_, ?_⟩
  · intro name msg
    exact ⟨rfl, rfl, by simp⟩
  · intro apiKey baseUrl envKey c h
    unfold LangVoiceClient.mk? at h
    split_ifs at h with hk
    simp only [Except.ok.injEq] at h
    exact (congrArg LangVoiceClient.timeout h.symm).trans rfl

/-- Witness for C7: a concrete network failure differs from the timeout
error, and a concretely constructed client defaults to 60000 ms. -/
theorem request_timeout_distinct_witness :
    LVError.jsError "TypeError" "fetch failed" ≠ .api "Request timeout" (some 408) ∧
    ({ apiKey := "k", baseUrl := "https://www.langvoice.pro/api", timeout := 60000 } :
      LangVoiceClient).timeout = 60000 :=
  ⟨(request_timeout_distinct.2.2.1 "TypeError" "fetch failed").2.2,
   request_timeout_distinct.2.2.2 (some "k") none none _ (by decide)⟩

/-- `VoiceCloningRequest` construction succeeds exactly on valid input
(spec-modelled constructor). -/
theorem vcReq_ok_iff (text : String) (sample : String) (s : Option ℚ) :
    (∃ r, VoiceCloningRequest.mk? (some text) sample s = .ok r) ↔
      (1 ≤ text.length ∧ text.length ≤ 5000 ∧
        1/2 ≤ jsNullish s 1 ∧ jsNullish s 1 ≤ 2) := by
  have hne : text ≠ "" → 1 ≤ text.length := by
    intro h
    have := (string_length_eq_zero_iff text).not.mpr h
    omega
  unfold VoiceCloningRequest.mk?
  simp only [Option.some.injEq, reduceCtorEq, false_or, Option.getD_some]
  by_cases h0 : text = ""
  · subst h0
    simp
  · rw [if_neg h0]
    by_cases h1 : text.length > 5000
    · rw [if_pos h1]
      simp
      omega
    · rw [if_neg h1]
      by_cases h2 : jsNullish s 1 < mkRat 1 2 ∨ jsNullish s 1 > 2
      · rw [if_pos h2]
        constructor
        · rintro ⟨r, hr⟩
          simp at hr
        · rintro ⟨-, -, h3, h4⟩
          exfalso
          rw [mkRat_one_two] at h2
          rcases h2 with h2 | h2 <;> linarith
      · rw [if_neg h2]
        push_neg at h2
        rw [mkRat_one_two] at h2
        simp
        refine ⟨hne h0, by omega, ?_, ?_⟩ <;> linarith [h2.1, h2.2]

/-- Every `VoiceCloningRequest` construction failure carries a validation
message. -/
theorem vcReq_error_mem (text : Option String) (sample : String) (s : Option ℚ) :
    ∀ m, VoiceCloningRequest.mk? text sample s = .error m → m ∈ validationMessages := by
  intro m h
  unfold VoiceCloningRequest.mk? at h
  by_cases c1 : text = none ∨ text = some ""
  · rw [if_pos c1] at h
    simp_all [validationMessages]
  · rw [if_neg c1] at h
    by_cases c2 : (text.getD "").length > 5000
    · rw [if_pos c2] at h
      simp_all [validationMessages]
    · rw [if_neg c2] at h
      by_cases c3 : jsNullish s 1 < mkRat 1 2 ∨ jsNullish s 1 > 2
      · rw [if_pos c3] at h
        simp_all [validationMessages]
      · rw [if_neg c3] at h
        simp_all

/-- **C5.** (spec-modelled) A `VoiceCloningRequest` holds text, a base64
reference sample and speed — and nothing else: two requests agreeing on
those three agree outright — with the `GenerateRequest` construction
invariants (success iff text length in `[1,5000]` and effective speed in
`[0.5,2]`, failure with a validation message otherwise); and on invalid
input `generateCloned` fails with that validation error for *every*
network oracle, i.e. before any network call. -/
theorem voice_cloning_request_spec (text : String) (sample : String) (speed : Option ℚ) :
    ((∃ r, VoiceCloningRequest.mk? (some text) sample speed = .ok r) ↔
      (1 ≤ text.length ∧ text.length ≤ 5000 ∧
        1/2 ≤ jsNullish speed 1 ∧ jsNullish speed 1 ≤ 2)) ∧
    (∀ r, VoiceCloningRequest.mk? (some text) sample speed = .ok r →
      r.text = text ∧ r.voice_sample_base64 = sample ∧ r.speed = jsNullish speed 1) ∧
    (∀ m, VoiceCloningRequest.mk? (some text) sample speed = .error m →
      m ∈ validationMessages) ∧
    (∀ r q : VoiceCloningRequest, r.text = q.text →
      r.voice_sample_base64 = q.voice_sample_base64 → r.speed = q.speed → r = q) ∧
    (¬ (1 ≤ text.length ∧ text.length ≤ 5000 ∧
          1/2 ≤ jsNullish speed 1 ∧ jsNullish speed 1 ≤ 2) →
      ∀ net, ∃ m, m ∈ validationMessages ∧
        LangVoiceClient.generateCloned net (some text) sample speed =
          .error (.jsError "Error" m)) := by
  refine ⟨vcReq_ok_iff text sample speed, ?_, vcReq_error_mem (some text) sample speed,
    ?_, ?_⟩
  · intro r h
    unfold VoiceCloningRequest.mk? at h
    by_cases c1 : some text = none ∨ some text = (some "" : Option String)
    · rw [if_pos c1] at h
      simp at h
    · rw [if_neg c1] at h
      by_cases c2 : ((some text).getD "").length > 5000
      · rw [if_pos c2] at h
        simp at h
      · rw [if_neg c2] at h
        by_cases c3 : jsNullish speed 1 < mkRat 1 2 ∨ jsNullish speed 1 > 2
        · rw [if_pos c3] at h
          simp at h
        · rw [if_neg c3] at h
          simp only [Except.ok.injEq] at h
          refine ⟨?_, ?_, ?_⟩
          · exact (congrArg VoiceCloningRequest.text h.symm).trans rfl
          · exact (congrArg VoiceCloningRequest.voice_sample_base64 h.symm).trans rfl
          · exact (congrArg VoiceCloningRequest.speed h.symm).trans rfl
  · intro r q h1 h2 h3
    cases r
    cases q
    simp_all
  · intro hinv net
    rcases hm : VoiceCloningRequest.mk? (some text) sample speed with m | r
    · refine ⟨m, vcReq_error_mem (some text) sample speed m hm, ?_⟩
      unfold LangVoiceClient.generateCloned
      rw [hm]
      rfl
    · exact absurd ((vcReq_ok_iff text sample speed).mp ⟨r, hm⟩) hinv

/-- Witness for C5 at text `"Hi"`, an empty reference sample, speed
unspecified. -/
theorem voice_cloning_request_spec_witness :
    ∃ r, VoiceCloningRequest.mk? (some "Hi") "c2FtcGxl" none = .ok r :=
  (voice_cloning_request_spec "Hi" "c2FtcGxl" none).1.mpr
    (by refine ⟨by decide, by decide, ?_, ?_⟩ <;> norm_num [jsNullish])

/-- A `GenerateRequest` built with speed `0` (and otherwise valid text)
fails with the speed validation error: `?? 1.0` does not replace `0`. -/
theorem genReq_speed_zero_error (text : String) (v l : Option String)
    (h0 : text ≠ "") (h1 : text.length ≤ 5000) :
    GenerateRequest.mk? (some text) v l (some 0) =
      .error "Speed must be between 0.5 and 2.0" := by
  unfold GenerateRequest.mk?
  rw [if_neg (by simp [h0]), if_neg (by simpa using h1), if_pos (by left; decide)]

/-- **C10.** Every adapter's TTS surface treats a supplied speed of `0`
exactly like an unspecified speed (the `|| 1.0` defaulting), so the
adapter call proceeds and can succeed, whereas a direct
`client.generate` call with speed `0` fails request validation with the
speed error (for any oracle): the adapter and client boundaries treat
speed `0` differently. -/
theorem adapter_speed_zero_defaulting (net : NetworkOracle) (fs : FsOracle)
    (cfg : AGConfig) (tool : LangVoiceTTSTool) (text : String)
    (textO voice language output_file : Option String) :
    (LangVoiceToolkit.textToSpeech net
        { text := textO, voice := voice, language := language, speed := some 0 } =
      LangVoiceToolkit.textToSpeech net
        { text := textO, voice := voice, language := language, speed := none }) ∧
    (handleOpenAIToolCall net TOOL_TTS
        { text := textO, voice := voice, language := language, speed := some 0 } =
      handleOpenAIToolCall net TOOL_TTS
        { text := textO, voice := voice, language := language, speed := none }) ∧
    (LangVoiceAutoGenTools.textToSpeechHandler net fs cfg
        { text := textO, voice := voice, language := language, speed := some 0
          output_file := output_file } =
      LangVoiceAutoGenTools.textToSpeechHandler net fs cfg
        { text := textO, voice := voice, language := language, speed := none
          output_file := output_file }) ∧
    (tool.call net fs (.objIn
        { text := textO, voice := voice, language := language, speed := some 0 }) =
      tool.call net fs (.objIn
        { text := textO, voice := voice, language := language, speed := none })) ∧
    (1 ≤ text.length → text.length ≤ 5000 →
      LangVoiceClient.generate net (some text) voice language (some 0) =
        .error (.jsError "Error" "Speed must be between 0.5 and 2.0")) ∧
    (LangVoiceToolkit.textToSpeech sampleNet
        { text := some "Hello world", speed := some 0 }).success = true := by
  refine ⟨rfl, rfl, rfl, rfl, ?_, ?_⟩
  · intro h1 h2
    have h0 : text ≠ "" := by
      intro he
      rw [he] at h1
      simp at h1
    unfold LangVoiceClient.generate
    rw [genReq_speed_zero_error text voice language h0 h2]
    rfl
  · rfl

/-- Witness for C10: speed `0` at the client boundary fails, at the
adapter boundary succeeds. -/
theorem adapter_speed_zero_defaulting_witness :
    LangVoiceClient.generate sampleNet (some "Hello world") none none (some 0) =
      .error (.jsError "Error" "Speed must be between 0.5 and 2.0") ∧
    (LangVoiceToolkit.textToSpeech sampleNet
        { text := some "Hello world", speed := some 0 }).success = true :=
  ⟨(adapter_speed_zero_defaulting sampleNet (fun _ => .ok ()) (AGConfig.ofOptions none none)
      (LangVoiceTTSTool.ofOptions none) "Hello world" (some "Hello world")
      none none none).2.2.2.2.1 (by decide) (by decide),
   (adapter_speed_zero_defaulting sampleNet (fun _ => .ok ()) (AGConfig.ofOptions none none)
      (LangVoiceTTSTool.ofOptions none) "Hello world" (some "Hello world")
      none none none).2.2.2.2.2⟩

/-- The `GenerateResponse` the client builds from `sampleResponse`. -/
def sampleGenResponse : GenerateResponse :=
  { audioData := [72, 105], duration := some (mkRat 5 2)
    generationTime := none, charactersProcessed := some 100 }

/-- **C6.** Each of the four adapters, given exactly `{text: "Hello
world"}`, interrogates as successful and carries the same underlying
audio bytes as a direct `client.generate` call with voice `"heart"`,
language `"american_english"`, speed `1.0` — the adapters resolve the
omitted arguments to exactly the request model's defaults.  The generic
and OpenAI adapters embed the audio as `resp.toBase64`; the AutoGen and
LangChain adapters (whose file write succeeds) persist exactly
`resp.audioData`. -/
theorem adapter_defaults_match_direct (net : NetworkOracle) (fs : FsOracle)
    (cfg : AGConfig) (tool : LangVoiceTTSTool) (path : String) (resp : GenerateResponse)
    (hdirect : LangVoiceClient.generate net (some "Hello world") (some "heart")
      (some "american_english") (some 1) = .ok resp)
    (hauto : cfg.autoSave = true)
    (hw : fs cfg.outputFile = .ok ())
    (htool : tool.outputFile = some path)
    (hwp : fs path = .ok ()) :
    LangVoiceToolkit.textToSpeech net { text := some "Hello world" } =
      { success := true, audioBase64 := some resp.toBase64, duration := resp.duration
        charactersProcessed := resp.charactersProcessed } ∧
    handleOpenAIToolCall net TOOL_TTS { text := some "Hello world" } =
      { success := true, audioBase64 := some resp.toBase64, duration := resp.duration
        charactersProcessed := resp.charactersProcessed } ∧
    LangVoiceAutoGenTools.textToSpeechHandler net fs cfg { text := some "Hello world" } =
      ({ success := true
         message := some ("Speech generated and saved to " ++ cfg.outputFile)
         duration := resp.duration, charactersProcessed := resp.charactersProcessed
         outputFile := some cfg.outputFile },
       some (cfg.outputFile, resp.audioData)) ∧
    tool.call net fs (.strIn "Hello world") =
      (.savedOk path resp.duration resp.charactersProcessed,
       some (path, resp.audioData)) := by
  refine ⟨?_, ?_, ?_, ?_⟩
  · simp only [LangVoiceToolkit.textToSpeech, jsOrStr, jsOrQ]
    rw [hdirect]
  · simp only [handleOpenAIToolCall, jsOrStr, jsOrQ, TOOL_TTS, if_pos]
    rw [hdirect]
  · simp only [LangVoiceAutoGenTools.textToSpeechHandler, jsOrStr, jsOrQ]
    rw [hdirect]
    simp only [hauto, if_true]
    rw [hw]
  · simp only [LangVoiceTTSTool.call, jsOrStr, jsOrQ]
    rw [hdirect, htool]
    simp only []
    rw [hwp]

/-- Witness for C6 at the sample network, with an always-succeeding file
system. -/
theorem adapter_defaults_match_direct_witness :
    LangVoiceToolkit.textToSpeech sampleNet { text := some "Hello world" } =
      { success := true, audioBase64 := some sampleGenResponse.toBase64
        duration := sampleGenResponse.duration
        charactersProcessed := sampleGenResponse.charactersProcessed } ∧
    handleOpenAIToolCall sampleNet TOOL_TTS { text := some "Hello world" } =
      { success := true, audioBase64 := some sampleGenResponse.toBase64
        duration := sampleGenResponse.duration
        charactersProcessed := sampleGenResponse.charactersProcessed } :=
  have h := adapter_defaults_match_direct sampleNet (fun _ => .ok ())
    (AGConfig.ofOptions none none) (LangVoiceTTSTool.ofOptions none) "output.mp3"
    sampleGenResponse (by decide) rfl rfl rfl rfl
  ⟨h.1, h.2.1⟩

/-- An oracle on which every fetch times out. -/
def failNet : NetworkOracle :=
  { generate := fun _ => .abortError, multiVoice := fun _ => .abortError
    cloned := fun _ => .abortError, voices := .abortError, languages := .abortError }

/-- A file system on which every write fails. -/
def failFs : FsOracle := fun _ => .error "EACCES: permission denied"

/-- **C4 (counterexample).** The claim says *every* internally raised
error — "including a malformed JSON argument string" — is converted into
the adapter's envelope.  But `LangVoiceOpenAITools.handleCall` runs
`JSON.parse(toolCall.function.arguments)` outside any `try`, so on the
argument string `"{"` the parse error propagates out of the entry point
instead of an envelope being returned. -/
theorem adapter_error_containment_counterexample :
    LangVoiceOpenAITools.handleCall sampleNet TOOL_TTS "\x7b" =
      .error "SyntaxError: Unexpected token" := by
  decide

/-- **C4 (amended).** Every error raised inside an adapter's handlers is
caught and converted into that adapter's success/failure envelope — for
the generic `handleToolCall`, `handleOpenAIToolCall`, the LangChain
`call`, and (for already-parsed or parseable arguments) AutoGen's
`handleFunctionCall` and OpenAI's `handleCall`; but the two entry points
that `JSON.parse` a string argument do so outside their `try`, so a
malformed argument string makes them throw the parse error. -/
theorem adapter_error_containment (net : NetworkOracle) (fs : FsOracle)
    (cfg : AGConfig) (tool : LangVoiceTTSTool) (args : ToolArgs) (s : String)
    (e e' : LVError)
    (herr : LangVoiceClient.generate net args.text (some (jsOrStr args.voice "heart"))
      (some (jsOrStr args.language "american_english")) (some (jsOrQ args.speed 1)) =
        .error e)
    (hv : LangVoiceClient.listVoices net = .error e') :
    LangVoiceToolkit.handleToolCall net TOOL_TTS args =
      .ttsRes { success := false, error := some e.message } ∧
    LangVoiceToolkit.handleToolCall net TOOL_LIST_VOICES args =
      .voicesRes { success := false, error := some e'.message } ∧
    handleOpenAIToolCall net TOOL_TTS args =
      { success := false, error := some e.message } ∧
    tool.call net fs (.objIn args) =
      (.errorOut ("Error generating speech: " ++ e.message), none) ∧
    LangVoiceAutoGenTools.handleFunctionCall net fs cfg TOOL_TTS (.obj args) =
      .ok (.json { success := false, error := some e.message } none) ∧
    (∀ pairs, jsonParse s = .ok pairs →
      LangVoiceOpenAITools.handleCall net TOOL_TTS s =
        .ok (handleOpenAIToolCall net TOOL_TTS (toToolArgs pairs))) ∧
    (∀ err, jsonParse s = .error err →
      LangVoiceOpenAITools.handleCall net TOOL_TTS s = .error err ∧
      LangVoiceAutoGenTools.handleFunctionCall net fs cfg TOOL_TTS (.str s) =
        .error err) := by
  refine ⟨?_, ?_, ?_, ?_, ?_, ?_, ?_⟩
  · simp only [LangVoiceToolkit.handleToolCall, TOOL_TTS, if_pos,
      LangVoiceToolkit.textToSpeech]
    rw [herr]
  · simp only [LangVoiceToolkit.handleToolCall, TOOL_TTS, TOOL_MULTI_VOICE,
      TOOL_LIST_VOICES, LangVoiceToolkit.listVoices]
    simp only [if_true, if_false]
    rw [hv, if_neg (by decide), if_neg (by decide)]
  · simp only [handleOpenAIToolCall, TOOL_TTS, if_pos]
    rw [herr]
  · simp only [LangVoiceTTSTool.call]
    rw [herr]
  · simp only [LangVoiceAutoGenTools.handleFunctionCall, bind, Except.bind, TOOL_TTS,
      if_pos, LangVoiceAutoGenTools.textToSpeechHandler]
    rw [herr]
  · intro pairs hp
    simp only [LangVoiceOpenAITools.handleCall]
    rw [hp]
  · intro err hp
    constructor
    · simp only [LangVoiceOpenAITools.handleCall]
      rw [hp]
    · simp only [LangVoiceAutoGenTools.handleFunctionCall, bind, Except.bind, Except.map]
      rw [hp]

/-- Witness for C4 (amended): a timeout inside the TTS handler becomes a
failure envelope, and a malformed argument string makes
`handleFunctionCall` throw. -/
theorem adapter_error_containment_witness :
    LangVoiceToolkit.handleToolCall failNet TOOL_TTS { text := some "Hello" } =
      .ttsRes { success := false, error := some "Request timeout" } ∧
    LangVoiceAutoGenTools.handleFunctionCall failNet failFs (AGConfig.ofOptions none none)
      TOOL_TTS (.str "\x7b") = .error "SyntaxError: Unexpected token" :=
  have h := adapter_error_containment failNet failFs (AGConfig.ofOptions none none)
    (LangVoiceTTSTool.ofOptions none) { text := some "Hello" } "\x7b"
    (.api "Request timeout" (some 408)) (.api "Request timeout" (some 408))
    (by decide) (by decide)
  ⟨h.1, (h.2.2.2.2.2.2 "SyntaxError: Unexpected token" (by decide)).2⟩

/-- **C9.** When audio persistence fails, no adapter raises: the
LangChain tool degrades to its success string carrying the
already-computed duration and a base64 preview; the AutoGen handler
still reports `success: true` with duration, characters processed and a
preview; and the explicit `saveAudio` returns `false`.  The failure
never reaches the envelope of the underlying generate result. -/
theorem persistence_failure_nonfatal (net : NetworkOracle) (fs : FsOracle)
    (cfg : AGConfig) (tool : LangVoiceTTSTool) (path : String) (args : ToolArgs)
    (resp : GenerateResponse) (werr : String)
    (hgen : LangVoiceClient.generate net args.text (some (jsOrStr args.voice "heart"))
      (some (jsOrStr args.language "american_english")) (some (jsOrQ args.speed 1)) =
        .ok resp)
    (htool : tool.outputFile = some path)
    (hfail : fs path = .error werr)
    (hauto : cfg.autoSave = true)
    (hfail2 : fs (jsOrStr args.output_file cfg.outputFile) = .error werr) :
    tool.call net fs (.objIn args) =
      (.generatedPreview resp.duration (resp.toBase64.take 100 ++ "..."), none) ∧
    LangVoiceAutoGenTools.textToSpeechHandler net fs cfg args =
      ({ success := true
         message := some "Speech generated (file save not available in this environment)"
         duration := resp.duration, charactersProcessed := resp.charactersProcessed
         audioBase64Preview := some (resp.toBase64.take 100 ++ "...") }, none) ∧
    (∀ result p, fs p = .error werr →
      LangVoiceToolkit.saveAudio fs result p = (false, none)) := by
  refine ⟨?_, ?_, ?_⟩
  · simp only [LangVoiceTTSTool.call]
    rw [hgen, htool]
    simp only []
    rw [hfail]
  · simp only [LangVoiceAutoGenTools.textToSpeechHandler]
    rw [hgen]
    simp only [hauto, if_true]
    rw [hfail2]
  · intro result p hp
    unfold LangVoiceToolkit.saveAudio
    by_cases hc : result.success = false ∨ result.audioBase64 = none ∨
      result.audioBase64 = some ""
    · rw [if_pos hc]
    · rw [if_neg hc, hp]

/-- Witness for C9 at the sample network with an unwritable file
system. -/
theorem persistence_failure_nonfatal_witness :
    LangVoiceAutoGenTools.textToSpeechHandler sampleNet failFs
        (AGConfig.ofOptions none none) { text := some "Hello" } =
      ({ success := true
         message := some "Speech generated (file save not available in this environment)"
         duration := sampleGenResponse.duration
         charactersProcessed := sampleGenResponse.charactersProcessed
         audioBase64Preview := some (sampleGenResponse.toBase64.take 100 ++ "...") },
       none) ∧
    LangVoiceToolkit.saveAudio failFs
      { success := true, audioBase64 := some "aGV5" } "out.mp3" = (false, none) :=
  have h := persistence_failure_nonfatal sampleNet failFs (AGConfig.ofOptions none none)
    (LangVoiceTTSTool.ofOptions none) "output.mp3" { text := some "Hello" }
    sampleGenResponse "EACCES: permission denied" (by decide) rfl rfl rfl rfl
  ⟨h.2.1, h.2.2 { success := true, audioBase64 := some "aGV5" } "out.mp3" rfl⟩

end LangVoice
